import Mathlib

/-!
Verification of the resilient remote-call guard of AuditFlow
(`partA_document_agent/src/api_client.py` and the configuration builder in
`partA_document_agent/src/config.py`).

Shallow embedding conventions:
* timestamps and durations compared and added by the breaker (Python
  floats from `time.time()`) are modelled as integers: the breaker only
  orders and adds them, so the embedding is faithful on those operations;
  the backoff calculator, which genuinely multiplies fractions, uses Q;
* `requests.post` is modelled by a `transport` oracle mapping the 1-based
  attempt number to either a raised exception (`Timeout`/`RequestException`
  with no response object) or a returned response carrying a status code;
  `response.raise_for_status()` raises exactly when `400 <= status < 600`;
* the global per-endpoint dictionary `_circuit_state` is modelled, for a
  single endpoint, as an `Option CBState` (`none` = endpoint never seen);
* `random.uniform(a, b)` is modelled by an oracle `rand : Q -> Q -> Q`
  assumed to return a value inside its bounds.
-/

namespace AuditFlow

/-- The `state` field of a circuit-breaker entry: the strings
`"closed"`, `"open"`, `"half_open"` of the source. -/
inductive CBPhase where
  | closed
  | opened
  | half_open
deriving DecidableEq, Repr

/-- `config.CircuitBreakerConfig` (fields `failure_threshold`,
`failure_window`, `reset_timeout`). -/
structure CircuitBreakerConfig where
  failure_threshold : Nat
  failure_window : Int
  reset_timeout : Int
deriving DecidableEq, Repr

/-- `config.RetryConfig` (fields `max_attempts`, `backoff_seconds`,
`max_backoff_seconds`, `jitter`). -/
structure RetryConfig where
  max_attempts : Int
  backoff_seconds : ℚ
  max_backoff_seconds : ℚ
  jitter : ℚ
deriving DecidableEq, Repr

/-- One entry of the global `_circuit_state` dictionary, as initialised in
`_update_circuit_breaker`. -/
structure CBState where
  state : CBPhase
  failure_count : Nat
  failure_window_start : Int
  last_failure_time : Option Int
  next_attempt_time : Option Int
deriving DecidableEq, Repr

/-- The fresh entry `_update_circuit_breaker` creates when the endpoint is
not yet in `_circuit_state`. -/
def initCBState (now : Int) : CBState :=
  { state := .closed
    failure_count := 0
    failure_window_start := now
    last_failure_time := none
    next_attempt_time := none }

/-- `_is_circuit_open(endpoint, cb_config)`: returns whether the circuit is
open and the (possibly mutated) state.  The `cb_config` parameter is passed
but never read by the source.  When the state is `"open"` and
`now >= state.get("next_attempt_time", 0)`, the entry moves to
`"half_open"`, `last_failure_time` is set to `now`, and `False` is
returned (one trial is allowed). -/
def is_circuit_open (_cb_config : CircuitBreakerConfig) (now : Int)
    (st : Option CBState) : Bool × Option CBState :=
  match st with
  | none => (false, none)
  | some s =>
    if s.state = .opened then
      if s.next_attempt_time.getD 0 ≤ now then
        (false, some { s with state := .half_open, last_failure_time := some now })
      else
        (true, some s)
    else
      (false, some s)

/-- `_update_circuit_breaker(endpoint, success, cb_config)`.  A missing
entry is first created via `initCBState`.  On success the phase is forced
to `"closed"`, `failure_count` to 0 and `failure_window_start` to `now`
(note: `next_attempt_time` is NOT cleared).  On failure `failure_count`
is incremented and `last_failure_time` set; a closed breaker opens when
the new count reaches `failure_threshold`, a half-open breaker reopens
immediately; in both cases `next_attempt_time := now + reset_timeout`. -/
def update_circuit_breaker (cb_config : CircuitBreakerConfig) (now : Int)
    (success : Bool) (st : Option CBState) : CBState :=
  let s := st.getD (initCBState now)
  if success then
    { s with state := .closed, failure_count := 0, failure_window_start := now }
  else
    let s1 := { s with failure_count := s.failure_count + 1,
                       last_failure_time := some now }
    if s1.state = .closed then
      if cb_config.failure_threshold ≤ s1.failure_count then
        { s1 with state := .opened,
                  next_attempt_time := some (now + cb_config.reset_timeout) }
      else
        s1
    else if s1.state = .half_open then
      { s1 with state := .opened,
                next_attempt_time := some (now + cb_config.reset_timeout) }
    else
      s1

/-- `reset_circuit_breaker(endpoint)`: if the endpoint has an entry, force
phase to `"closed"` and `failure_count` to 0 (nothing else is touched) and
return `True`; otherwise return `False`. -/
def reset_circuit_breaker (st : Option CBState) : Bool × Option CBState :=
  match st with
  | none => (false, none)
  | some s => (true, some { s with state := .closed, failure_count := 0 })

/-- Result of one `requests.post` call: either the call raised
(`Timeout` / `RequestException`, no response object) or it returned a
response with the given HTTP status code. -/
inductive TransportResult where
  | raised
  | response (status : Nat)
deriving DecidableEq, Repr

/-- `Response.raise_for_status()` raises for client and server error
statuses: `400 <= status < 600`. -/
def isErrStatus (status : Nat) : Bool :=
  decide (400 ≤ status ∧ status < 600)

/-- Error reasons of the failure dictionaries built by the source: the
literal string `"circuit_breaker_open"`, `str(e)` for a raised
`Timeout`/`RequestException`, and `str(e)` for the `HTTPError` raised by
`raise_for_status` on an error status. -/
inductive ErrReason where
  | circuitBreakerOpen
  | transportRaised
  | httpStatusError (status : Nat)
deriving DecidableEq, Repr

/-- The caller-visible part of the dictionaries returned by
`_call_httpbin_with_retry` / `_log_api_failure`: the `success` flag, the
attempts count (`total_attempts` / `attempts`) and the error reason
(`none` models Python `last_error is None`). -/
structure CallResult where
  success : Bool
  attempts : Nat
  error : Option ErrReason
deriving DecidableEq, Repr

/-- Whether the attempt with 1-based index `a` satisfies the source's
success path: `requests.post` returned a response and
`raise_for_status()` did not raise. -/
def attempt_succeeds (transport : Nat → TransportResult) (a : Nat) : Bool :=
  match transport a with
  | .raised => false
  | .response status => !isErrStatus status

/-- The retry loop `for attempt in range(1, max_attempts + 1)` of
`_call_httpbin_with_retry`, with `remaining` attempts still to run and
`attempt` the 1-based index of the current one.  Each iteration invokes
the transport once; when a response object comes back the breaker success
update `_update_circuit_breaker(endpoint, True, ...)` runs BEFORE
`raise_for_status()` inspects the status.  When the loop exhausts,
`_update_circuit_breaker(endpoint, False, ...)` runs once and a failure
result with `attempts = total_attempts` is produced.  The third component
counts transport invocations.  `time i` is the wall clock observed during
attempt `i` (the exhaustion update observes `time attempt` for the
counter value at which the loop ended). -/
def attempt_loop (cb_config : CircuitBreakerConfig)
    (transport : Nat → TransportResult) (time : Nat → Int) :
    Nat → Nat → Option ErrReason → Option CBState →
    CallResult × Option CBState × Nat
  | 0, attempt, lastErr, st =>
    let st2 := update_circuit_breaker cb_config (time attempt) false st
    ({ success := false, attempts := attempt - 1, error := lastErr }, some st2, 0)
  | remaining + 1, attempt, lastErr, st =>
    match transport attempt with
    | .raised =>
      let r := attempt_loop cb_config transport time remaining (attempt + 1)
                 (some .transportRaised) st
      (r.1, r.2.1, r.2.2 + 1)
    | .response status =>
      let st1 := some (update_circuit_breaker cb_config (time attempt) true st)
      if isErrStatus status then
        let r := attempt_loop cb_config transport time remaining (attempt + 1)
                   (some (.httpStatusError status)) st1
        (r.1, r.2.1, r.2.2 + 1)
      else
        ({ success := true, attempts := attempt, error := none }, st1, 1)

/-- `_call_httpbin_with_retry`: first the `_is_circuit_open` check (which
may move an open entry to half-open); if the circuit is open, the failure
result `{"success": False, "attempts": 0, "error": "circuit_breaker_open"}`
is returned with no transport call; otherwise the retry loop runs
`max_attempts` times (Python `range(1, max_attempts + 1)`, empty when
`max_attempts <= 0`, whence `Int.toNat`). -/
def call_httpbin_with_retry (retry_config : RetryConfig)
    (cb_config : CircuitBreakerConfig) (transport : Nat → TransportResult)
    (time : Nat → Int) (st : Option CBState) :
    CallResult × Option CBState × Nat :=
  let chk := is_circuit_open cb_config (time 0) st
  if chk.1 then
    ({ success := false, attempts := 0, error := some .circuitBreakerOpen },
      chk.2, 0)
  else
    attempt_loop cb_config transport time retry_config.max_attempts.toNat 1
      none chk.2

/-- `_calculate_backoff(attempt, retry_config)`: exponential backoff
`backoff_seconds * 2^(attempt-1)` capped at `max_backoff_seconds`; when
`jitter > 0`, `random.uniform(-delay*jitter, delay*jitter)` is added; the
result is floored at 0. -/
def calculate_backoff (retry_config : RetryConfig) (attempt : Nat)
    (rand : ℚ → ℚ → ℚ) : ℚ :=
  let delay := retry_config.backoff_seconds * 2 ^ (attempt - 1)
  let delay := min delay retry_config.max_backoff_seconds
  let delay :=
    if 0 < retry_config.jitter then
      delay + rand (-(delay * retry_config.jitter)) (delay * retry_config.jitter)
    else
      delay
  max 0 delay

/-- One externally visible circuit-breaker operation: the
`_is_circuit_open` check made on behalf of a logical call, a
`_update_circuit_breaker` record, or `reset_circuit_breaker`. -/
inductive CBOp where
  | mayAttempt (now : Int)
  | record (success : Bool) (now : Int)
  | reset
deriving DecidableEq, Repr

/-- Apply one breaker operation; the second component is the returned
boolean for the operations that return one. -/
def cb_step (cb_config : CircuitBreakerConfig) (st : Option CBState) :
    CBOp → Option CBState × Option Bool
  | .mayAttempt now =>
    let r := is_circuit_open cb_config now st
    (r.2, some r.1)
  | .record success now =>
    (some (update_circuit_breaker cb_config now success st), none)
  | .reset =>
    let r := reset_circuit_breaker st
    (r.2, some r.1)

/-- Run a sequence of breaker operations, collecting the returned values. -/
def cb_trace (cb_config : CircuitBreakerConfig) :
    List CBOp → Option CBState → Option CBState × List (Option Bool)
  | [], st => (st, [])
  | op :: ops, st =>
    let r := cb_step cb_config st op
    let rest := cb_trace cb_config ops r.1
    (rest.1, r.2 :: rest.2)

/-- The state reached from an unseen endpoint by a sequence of breaker
operations. -/
def cb_run (cb_config : CircuitBreakerConfig) (ops : List CBOp) :
    Option CBState :=
  ops.foldl (fun st op => (cb_step cb_config st op).1) none

/-- Fold of `_update_circuit_breaker` alone over a list of
`(success, now)` events, from an unseen endpoint. -/
def record_run (cb_config : CircuitBreakerConfig)
    (events : List (Bool × Int)) : Option CBState :=
  events.foldl
    (fun st e => some (update_circuit_breaker cb_config e.2 e.1 st)) none

/-- Whether the stored phase is `"open"` (an absent entry behaves as
closed: `_is_circuit_open` returns `False` for it). -/
def phase_is_open : Option CBState → Bool
  | none => false
  | some s => decide (s.state = .opened)

/-- Number of trailing failure events (the consecutive failures recorded
since the last success). -/
def trailing_failures (events : List (Bool × Int)) : Nat :=
  (events.reverse.takeWhile (fun e => !e.1)).length

/-! Configuration construction (`config.py`). -/

/-- The `retry:` subsection of the YAML data handed to
`_build_external_api_config`: each key either absent or present with a
value. -/
structure RetryData where
  max_attempts : Option Int
  backoff_seconds : Option ℚ
  max_backoff_seconds : Option ℚ
  jitter : Option ℚ
deriving DecidableEq, Repr

/-- `ConfigLoader._get_int`: `data.get(key, default)` — the default
applies only when the key is absent; no range check is performed. -/
def get_int (v : Option Int) (default : Int) : Int :=
  v.getD default

/-- `ConfigLoader._get_float`: `data.get(key, default)`, no validation. -/
def get_float (v : Option ℚ) (default : ℚ) : ℚ :=
  v.getD default

/-- The `RetryConfig(...)` construction inside
`ConfigLoader._build_external_api_config`, with the source's defaults
`max_attempts=3`, `backoff_seconds=2.0`, `max_backoff_seconds=60.0`,
`jitter=0.1`.  The construction is total: no value is rejected. -/
def build_retry_config (d : RetryData) : RetryConfig :=
  { max_attempts := get_int d.max_attempts 3
    backoff_seconds := get_float d.backoff_seconds 2
    max_backoff_seconds := get_float d.max_backoff_seconds 60
    jitter := get_float d.jitter (1 / 10) }

end AuditFlow

namespace AuditFlow

/-! Helper lemmas about single breaker steps. -/

lemma update_true_eq (cb_config : CircuitBreakerConfig) (now : Int)
    (st : Option CBState) :
    update_circuit_breaker cb_config now true st =
      { st.getD (initCBState now) with
          state := .closed, failure_count := 0, failure_window_start := now } := by
  simp [update_circuit_breaker]

lemma update_none_eq (cb_config : CircuitBreakerConfig) (now : Int) (b : Bool) :
    update_circuit_breaker cb_config now b none =
      update_circuit_breaker cb_config now b (some (initCBState now)) := by
  simp [update_circuit_breaker]

lemma update_false_closed_no_trip (cb_config : CircuitBreakerConfig) (now : Int)
    (s : CBState) (hs : s.state = .closed)
    (hlt : s.failure_count + 1 < cb_config.failure_threshold) :
    update_circuit_breaker cb_config now false (some s) =
      { s with failure_count := s.failure_count + 1,
               last_failure_time := some now } := by
  simp [update_circuit_breaker, hs]
  omega

lemma update_false_closed_trip (cb_config : CircuitBreakerConfig) (now : Int)
    (s : CBState) (hs : s.state = .closed)
    (hge : cb_config.failure_threshold ≤ s.failure_count + 1) :
    update_circuit_breaker cb_config now false (some s) =
      { s with state := .opened, failure_count := s.failure_count + 1,
               last_failure_time := some now,
               next_attempt_time := some (now + cb_config.reset_timeout) } := by
  simp [update_circuit_breaker, hs, hge]

lemma update_false_opened (cb_config : CircuitBreakerConfig) (now : Int)
    (s : CBState) (hs : s.state = .opened) :
    update_circuit_breaker cb_config now false (some s) =
      { s with failure_count := s.failure_count + 1,
               last_failure_time := some now } := by
  simp [update_circuit_breaker, hs]

lemma update_false_half_open (cb_config : CircuitBreakerConfig) (now : Int)
    (s : CBState) (hs : s.state = .half_open) :
    update_circuit_breaker cb_config now false (some s) =
      { s with state := .opened, failure_count := s.failure_count + 1,
               last_failure_time := some now,
               next_attempt_time := some (now + cb_config.reset_timeout) } := by
  simp [update_circuit_breaker, hs]

/-- C3: when the breaker check denies the attempt (phase Open and
`now < next_attempt_time`), `_call_httpbin_with_retry` returns the outcome
`{success: false, attempts: 0, error: "circuit_breaker_open"}`, the state
is unchanged, the transport is invoked zero times and the retry loop is
not entered (the returned invocation count is 0). -/
theorem circuit_open_short_circuits_call (retry_config : RetryConfig)
    (cb_config : CircuitBreakerConfig) (transport : Nat → TransportResult)
    (time : Nat → Int) (s : CBState) (t : Int)
    (hphase : s.state = .opened) (hnext : s.next_attempt_time = some t)
    (hnow : time 0 < t) :
    call_httpbin_with_retry retry_config cb_config transport time (some s) =
      ({ success := false, attempts := 0, error := some .circuitBreakerOpen },
        some s, 0) := by
  have hchk : is_circuit_open cb_config (time 0) (some s) = (true, some s) := by
    simp [is_circuit_open, hphase, hnext]
    omega
  simp [call_httpbin_with_retry, hchk]

/-- Witness for C3 at a concrete open state one second after tripping. -/
theorem circuit_open_short_circuits_call_witness :
    call_httpbin_with_retry
      { max_attempts := 3, backoff_seconds := 2, max_backoff_seconds := 60,
        jitter := 0 }
      { failure_threshold := 3, failure_window := 60, reset_timeout := 30 }
      (fun _ => .response 200) (fun _ => 3)
      (some { state := .opened, failure_count := 3, failure_window_start := 0,
              last_failure_time := some 2, next_attempt_time := some 32 }) =
      ({ success := false, attempts := 0, error := some .circuitBreakerOpen },
        some { state := .opened, failure_count := 3, failure_window_start := 0,
               last_failure_time := some 2, next_attempt_time := some 32 },
        0) :=
  circuit_open_short_circuits_call _ _ _ _ _ 32 rfl rfl (by decide)

/-- C4: while Open with `now < next_attempt_time` the check reports the
circuit open (`may_attempt` false) and leaves the state alone; at the
first check with `now >= next_attempt_time` the phase moves to HalfOpen
and the attempt is admitted; a further check while HalfOpen does not
transition again; a success recorded in the trial closes the breaker with
`failure_count = 0`; a failure recorded in the trial reopens it with
`next_attempt_time = now + reset_timeout`. -/
theorem open_half_open_trial_protocol (cb_config : CircuitBreakerConfig) :
    (∀ (s : CBState) (now t : Int), s.state = .opened →
        s.next_attempt_time = some t → now < t →
        is_circuit_open cb_config now (some s) = (true, some s))
  ∧ (∀ (s : CBState) (now t : Int), s.state = .opened →
        s.next_attempt_time = some t → t ≤ now →
        is_circuit_open cb_config now (some s) =
          (false, some { s with state := .half_open,
                                last_failure_time := some now }))
  ∧ (∀ (s : CBState) (now : Int), s.state = .half_open →
        is_circuit_open cb_config now (some s) = (false, some s))
  ∧ (∀ (s : CBState) (now : Int), s.state = .half_open →
        update_circuit_breaker cb_config now true (some s) =
          { s with state := .closed, failure_count := 0,
                   failure_window_start := now })
  ∧ (∀ (s : CBState) (now : Int), s.state = .half_open →
        update_circuit_breaker cb_config now false (some s) =
          { s with state := .opened, failure_count := s.failure_count + 1,
                   last_failure_time := some now,
                   next_attempt_time := some (now + cb_config.reset_timeout) }) := by
  refine ⟨?_, ?_, ?_, ?_, ?_⟩
  · intro s now t hs hn hlt
    simp [is_circuit_open, hs, hn]
    omega
  · intro s now t hs hn hge
    simp [is_circuit_open, hs, hn, hge]
  · intro s now hs
    simp [is_circuit_open, hs]
  · intro s now hs
    exact update_true_eq cb_config now (some s)
  · intro s now hs
    exact update_false_half_open cb_config now s hs

/-- Witness for C4 at the boundary instant `now = next_attempt_time`. -/
theorem open_half_open_trial_protocol_witness :
    is_circuit_open { failure_threshold := 3, failure_window := 60, reset_timeout := 30 } 32
      (some { state := .opened, failure_count := 3, failure_window_start := 0,
              last_failure_time := some 2, next_attempt_time := some 32 }) =
      (false, some { state := .half_open, failure_count := 3,
                     failure_window_start := 0, last_failure_time := some 32,
                     next_attempt_time := some 32 }) :=
  (open_half_open_trial_protocol _).2.1 _ 32 32 rfl rfl (by decide)

end AuditFlow

namespace AuditFlow

/-- C5: for every attempt and every value produced by the random source
(assumed to stay inside the bounds handed to `random.uniform`), the
backoff delay lies within
`[max 0 (capped*(1-jitter)), capped*(1+jitter)]` where
`capped = min(backoff_seconds * 2^(attempt-1), max_backoff_seconds)`;
with `jitter = 0` the delay equals `capped` exactly. -/
theorem backoff_within_jitter_bounds (retry_config : RetryConfig)
    (attempt : Nat) (rand : ℚ → ℚ → ℚ)
    (hattempt : 1 ≤ attempt)
    (hb : 0 ≤ retry_config.backoff_seconds)
    (hm : 0 ≤ retry_config.max_backoff_seconds)
    (hj : 0 ≤ retry_config.jitter)
    (hrand : ∀ a b : ℚ, a ≤ b → a ≤ rand a b ∧ rand a b ≤ b) :
    max 0 (min (retry_config.backoff_seconds * 2 ^ (attempt - 1))
             retry_config.max_backoff_seconds * (1 - retry_config.jitter))
        ≤ calculate_backoff retry_config attempt rand
  ∧ calculate_backoff retry_config attempt rand
        ≤ min (retry_config.backoff_seconds * 2 ^ (attempt - 1))
            retry_config.max_backoff_seconds * (1 + retry_config.jitter)
  ∧ (retry_config.jitter = 0 →
      calculate_backoff retry_config attempt rand
        = min (retry_config.backoff_seconds * 2 ^ (attempt - 1))
            retry_config.max_backoff_seconds) := by
  set capped : ℚ := min (retry_config.backoff_seconds * 2 ^ (attempt - 1))
      retry_config.max_backoff_seconds with hcapped
  have hcap0 : 0 ≤ capped := le_min (by positivity) hm
  by_cases hj0 : 0 < retry_config.jitter
  · have hcj : 0 ≤ capped * retry_config.jitter := mul_nonneg hcap0 hj
    obtain ⟨hlo, hhi⟩ := hrand (-(capped * retry_config.jitter))
      (capped * retry_config.jitter) (by linarith)
    have hval : calculate_backoff retry_config attempt rand =
        max 0 (capped + rand (-(capped * retry_config.jitter))
                          (capped * retry_config.jitter)) := by
      simp [calculate_backoff, hj0, hcapped]
    refine ⟨?_, ?_, ?_⟩
    · rw [hval]
      refine max_le_max le_rfl ?_
      nlinarith
    · rw [hval]
      refine max_le ?_ ?_
      · nlinarith
      · nlinarith
    · intro h0
      rw [h0] at hj0
      exact absurd hj0 (lt_irrefl 0)
  · have h0 : retry_config.jitter = 0 := le_antisymm (not_lt.mp hj0) hj
    have hval : calculate_backoff retry_config attempt rand = max 0 capped := by
      simp [calculate_backoff, hj0, hcapped]
    have hmaxc : max 0 capped = capped := max_eq_right hcap0
    refine ⟨?_, ?_, fun _ => by rw [hval, hmaxc]⟩
    · rw [hval, hmaxc, h0]
      simp [hcap0]
    · rw [hval, hmaxc, h0]
      simp

/-- Witness for C5: the spec scenario `delay_for(5)` with base 2s, max
60s and zero jitter evaluates to exactly 32s. -/
theorem backoff_within_jitter_bounds_witness :
    calculate_backoff
      { max_attempts := 3, backoff_seconds := 2, max_backoff_seconds := 60,
        jitter := 0 }
      5 (fun a _ => a) = 32 := by
  have h := (backoff_within_jitter_bounds
    { max_attempts := 3, backoff_seconds := 2, max_backoff_seconds := 60,
      jitter := 0 }
    5 (fun a _ => a) (by norm_num) (by norm_num) (by norm_num) (by norm_num)
    (fun a b hab => ⟨le_refl a, hab⟩)).2.2 rfl
  rw [h]
  norm_num

lemma update_congr_of_used_fields (cb1 cb2 : CircuitBreakerConfig)
    (h1 : cb1.failure_threshold = cb2.failure_threshold)
    (h2 : cb1.reset_timeout = cb2.reset_timeout) (now : Int) (b : Bool)
    (st : Option CBState) :
    update_circuit_breaker cb1 now b st = update_circuit_breaker cb2 now b st := by
  simp [update_circuit_breaker, h1, h2]

/-- C8: the breaker ignores `failure_window` entirely.  Two
configurations agreeing on `failure_threshold` and `reset_timeout` (so
differing at most in `failure_window`) produce identical state sequences
and identical returned values on every sequence of check / record / reset
operations; moreover a recorded failure always increments
`failure_count` by exactly one (it is never decayed by elapsed time). -/
theorem failure_window_never_used (cb1 cb2 : CircuitBreakerConfig)
    (h1 : cb1.failure_threshold = cb2.failure_threshold)
    (h2 : cb1.reset_timeout = cb2.reset_timeout) :
    (∀ (ops : List CBOp) (st : Option CBState),
        cb_trace cb1 ops st = cb_trace cb2 ops st)
  ∧ (∀ (now : Int) (st : Option CBState),
        (update_circuit_breaker cb1 now false st).failure_count
          = (st.getD (initCBState now)).failure_count + 1) := by
  constructor
  · intro ops
    induction ops with
    | nil => intro st; rfl
    | cons op ops ih =>
      intro st
      have hstep : cb_step cb1 st op = cb_step cb2 st op := by
        cases op with
        | mayAttempt now => rfl
        | record success now =>
          simp [cb_step, update_congr_of_used_fields cb1 cb2 h1 h2 now success st]
        | reset => rfl
      simp [cb_trace, hstep, ih]
  · intro now st
    cases st with
    | none =>
      rw [update_none_eq]
      rcases le_or_lt cb1.failure_threshold ((initCBState now).failure_count + 1)
        with h | h
      · rw [update_false_closed_trip cb1 now _ rfl h]
        rfl
      · rw [update_false_closed_no_trip cb1 now _ rfl h]
        rfl
    | some s =>
      cases hs : s.state with
      | closed =>
        rcases le_or_lt cb1.failure_threshold (s.failure_count + 1) with h | h
        · rw [update_false_closed_trip cb1 now s hs h]
          rfl
        · rw [update_false_closed_no_trip cb1 now s hs h]
          rfl
      | opened =>
        rw [update_false_opened cb1 now s hs]
        rfl
      | half_open =>
        rw [update_false_half_open cb1 now s hs]
        rfl


/-- Witness for C8: two configurations differing only in
`failure_window` trace identically on a concrete operation sequence. -/
theorem failure_window_never_used_witness :
    cb_trace { failure_threshold := 3, failure_window := 60, reset_timeout := 30 }
      [.record false 0, .record false 1, .mayAttempt 2, .record false 3,
       .mayAttempt 40, .reset]
      none =
    cb_trace { failure_threshold := 3, failure_window := 1000, reset_timeout := 30 }
      [.record false 0, .record false 1, .mayAttempt 2, .record false 3,
       .mayAttempt 40, .reset]
      none :=
  (failure_window_never_used _ _ rfl rfl).1 _ none

end AuditFlow

namespace AuditFlow

lemma record_run_concat (cb_config : CircuitBreakerConfig)
    (events : List (Bool × Int)) (e : Bool × Int) :
    record_run cb_config (events ++ [e]) =
      some (update_circuit_breaker cb_config e.2 e.1 (record_run cb_config events)) := by
  simp [record_run, List.foldl_append]

lemma record_run_eq_none_iff (cb_config : CircuitBreakerConfig)
    (events : List (Bool × Int)) :
    record_run cb_config events = none ↔ events = [] := by
  induction events using List.reverseRecOn with
  | nil => simp [record_run]
  | append_singleton es e _ => simp [record_run_concat]

lemma trailing_failures_concat_true (events : List (Bool × Int)) (t : Int) :
    trailing_failures (events ++ [(true, t)]) = 0 := by
  simp [trailing_failures, List.takeWhile]

lemma trailing_failures_concat_false (events : List (Bool × Int)) (t : Int) :
    trailing_failures (events ++ [(false, t)]) = trailing_failures events + 1 := by
  simp [trailing_failures, List.takeWhile]

lemma record_run_invariant (cb_config : CircuitBreakerConfig)
    (hth : 1 ≤ cb_config.failure_threshold) (events : List (Bool × Int))
    (s : CBState) (hrun : record_run cb_config events = some s) :
    s.failure_count = trailing_failures events
  ∧ s.state ≠ .half_open
  ∧ (s.state = .closed → s.failure_count < cb_config.failure_threshold)
  ∧ (s.state = .opened → cb_config.failure_threshold ≤ s.failure_count) := by
  induction events using List.reverseRecOn generalizing s with
  | nil => simp [record_run] at hrun
  | append_singleton es e ih =>
    rw [record_run_concat] at hrun
    obtain ⟨b, t⟩ := e
    cases b with
    | true =>
      rw [update_true_eq] at hrun
      obtain rfl := Option.some.injEq .. ▸ hrun.symm
      refine ⟨by simp [trailing_failures_concat_true], by simp, by simp; omega, by simp⟩
    | false =>
      cases hes : record_run cb_config es with
      | none =>
        obtain rfl : es = [] := (record_run_eq_none_iff cb_config es).mp hes
        rw [hes, update_none_eq] at hrun
        by_cases htrip : cb_config.failure_threshold ≤ (initCBState t).failure_count + 1
        · rw [update_false_closed_trip _ _ _ rfl htrip] at hrun
          obtain rfl := Option.some.injEq .. ▸ hrun.symm
          refine ⟨?_, by simp, by simp, ?_⟩
          · simp [trailing_failures_concat_false, trailing_failures, initCBState]
          · intro _
            simpa [initCBState] using htrip
        · rw [update_false_closed_no_trip _ _ _ rfl
            (by simp only [initCBState] at htrip ⊢; omega)] at hrun
          obtain rfl := Option.some.injEq .. ▸ hrun.symm
          refine ⟨?_, by simp [initCBState], ?_, ?_⟩
          · simp [trailing_failures_concat_false, trailing_failures, initCBState]
          · intro _
            simp only [initCBState] at htrip ⊢
            omega
          · intro habs
            simp [initCBState] at habs
      | some sPrev =>
        obtain ⟨ihcount, ihhalf, ihclosed, ihopen⟩ := ih sPrev hes
        rw [hes] at hrun
        cases hsPrev : sPrev.state with
        | closed =>
          by_cases htrip : cb_config.failure_threshold ≤ sPrev.failure_count + 1
          · rw [update_false_closed_trip _ _ _ hsPrev htrip] at hrun
            obtain rfl := Option.some.injEq .. ▸ hrun.symm
            refine ⟨?_, by simp, by simp, fun _ => by simpa using htrip⟩
            simp [trailing_failures_concat_false, ihcount]
          · rw [update_false_closed_no_trip _ _ _ hsPrev (by omega)] at hrun
            obtain rfl := Option.some.injEq .. ▸ hrun.symm
            refine ⟨?_, by simp [hsPrev], fun _ => by simp; omega, ?_⟩
            · simp [trailing_failures_concat_false, ihcount]
            · intro habs
              simp [hsPrev] at habs
        | opened =>
          rw [update_false_opened _ _ _ hsPrev] at hrun
          obtain rfl := Option.some.injEq .. ▸ hrun.symm
          refine ⟨?_, by simp [hsPrev], ?_, ?_⟩
          · simp [trailing_failures_concat_false, ihcount]
          · intro habs
            simp [hsPrev] at habs
          · intro _
            have := ihopen hsPrev
            simp
            omega
        | half_open => exact absurd hsPrev ihhalf

/-- C2: over any sequence of `record_result` updates from an unseen
endpoint, the stored phase is Open exactly when the consecutive failure
count recorded since the last success (the trailing failure run) has
reached `failure_threshold`; in particular successes that keep the run
below threshold never open the breaker.  At the tripping step itself
(`Closed`, incremented count reaching threshold) the update sets
`next_attempt_time = now + reset_timeout`. -/
theorem breaker_trips_exactly_at_threshold (cb_config : CircuitBreakerConfig)
    (hth : 1 ≤ cb_config.failure_threshold) :
    (∀ events : List (Bool × Int),
        phase_is_open (record_run cb_config events) = true ↔
          cb_config.failure_threshold ≤ trailing_failures events)
  ∧ (∀ (s : CBState) (now : Int), s.state = .closed →
        cb_config.failure_threshold ≤ s.failure_count + 1 →
        update_circuit_breaker cb_config now false (some s) =
          { s with state := .opened, failure_count := s.failure_count + 1,
                   last_failure_time := some now,
                   next_attempt_time := some (now + cb_config.reset_timeout) }) := by
  constructor
  · intro events
    cases hrun : record_run cb_config events with
    | none =>
      obtain rfl : events = [] := (record_run_eq_none_iff cb_config events).mp hrun
      simp [phase_is_open, trailing_failures]
      omega
    | some s =>
      obtain ⟨hcount, hhalf, hclosed, hopen⟩ :=
        record_run_invariant cb_config hth events s hrun
      constructor
      · intro hopenPhase
        have hst : s.state = .opened := by
          simpa [phase_is_open] using hopenPhase
        rw [← hcount]
        exact hopen hst
      · intro hge
        cases hst : s.state with
        | closed =>
          have := hclosed hst
          omega
        | opened => simp [phase_is_open, hst]
        | half_open => exact absurd hst hhalf
  · intro s now hs hge
    exact update_false_closed_trip cb_config now s hs hge

/-- Witness for C2: with threshold 3, a success interleaved before two
failures keeps the breaker closed, while three trailing failures open it. -/
theorem breaker_trips_exactly_at_threshold_witness :
    phase_is_open (record_run
      { failure_threshold := 3, failure_window := 60, reset_timeout := 30 }
      [(false, 0), (false, 1), (true, 2), (false, 3), (false, 4)]) = false
  ∧ phase_is_open (record_run
      { failure_threshold := 3, failure_window := 60, reset_timeout := 30 }
      [(true, 0), (false, 1), (false, 2), (false, 3)]) = true := by
  constructor
  · have h := (breaker_trips_exactly_at_threshold
      { failure_threshold := 3, failure_window := 60, reset_timeout := 30 }
      (by decide)).1 [(false, 0), (false, 1), (true, 2), (false, 3), (false, 4)]
    have hnot : ¬ (3 ≤ trailing_failures
        [(false, 0), (false, 1), (true, 2), (false, 3), (false, 4)]) := by decide
    cases hb : phase_is_open (record_run
      { failure_threshold := 3, failure_window := 60, reset_timeout := 30 }
      [(false, 0), (false, 1), (true, 2), (false, 3), (false, 4)]) with
    | false => rfl
    | true => exact absurd (h.mp hb) hnot
  · exact (breaker_trips_exactly_at_threshold
      { failure_threshold := 3, failure_window := 60, reset_timeout := 30 }
      (by decide)).1 [(true, 0), (false, 1), (false, 2), (false, 3)]
      |>.mpr (by decide)

/-- Counterexample to C6: with threshold 1 and reset timeout 30, a
failure at time 0 opens the breaker (next_attempt_time 30), the check at
time 30 moves it to half-open, and a success recorded at time 30 closes
it — but `next_attempt_time` is still `some 30`, because the success
branch of `_update_circuit_breaker` never clears it.  So a reachable
state has phase Closed with `next_attempt_time` set. -/
theorem closed_state_with_stale_next_attempt_time :
    cb_run { failure_threshold := 1, failure_window := 60, reset_timeout := 30 }
      [.record false 0, .mayAttempt 30, .record true 30] =
      some { state := .closed, failure_count := 0, failure_window_start := 30,
             last_failure_time := some 30, next_attempt_time := some 30 }
  ∧ (some (30 : Int) ≠ (none : Option Int)) := by
  constructor
  · decide
  · decide

lemma cb_step_preserves_open_next (cb_config : CircuitBreakerConfig)
    (st : Option CBState) (op : CBOp)
    (hinv : ∀ s, st = some s → s.state = .opened → s.next_attempt_time ≠ none) :
    ∀ s, (cb_step cb_config st op).1 = some s → s.state = .opened →
      s.next_attempt_time ≠ none := by
  cases op with
  | mayAttempt now =>
    cases st with
    | none => simp [cb_step, is_circuit_open]
    | some s0 =>
      by_cases hs0 : s0.state = .opened
      · by_cases hnext : s0.next_attempt_time.getD 0 ≤ now
        · intro s hstep
          simp [cb_step, is_circuit_open, hs0, hnext] at hstep
          intro hopen
          rw [← hstep] at hopen
          simp at hopen
        · intro s hstep
          simp [cb_step, is_circuit_open, hs0, hnext] at hstep
          rw [← hstep]
          exact hinv s0 rfl
      · intro s hstep
        simp [cb_step, is_circuit_open, hs0] at hstep
        rw [← hstep]
        exact hinv s0 rfl
  | record success now =>
    cases success with
    | true =>
      intro s hstep hopen
      simp [cb_step, update_true_eq] at hstep
      rw [← hstep] at hopen
      simp at hopen
    | false =>
      intro s hstep hopen
      cases st with
      | none =>
        rw [cb_step, update_none_eq] at hstep
        by_cases htrip : cb_config.failure_threshold ≤ (initCBState now).failure_count + 1
        · rw [update_false_closed_trip _ _ _ rfl htrip] at hstep
          simp at hstep
          rw [← hstep]
          simp
        · rw [update_false_closed_no_trip _ _ _ rfl
            (by simp only [initCBState] at htrip ⊢; omega)] at hstep
          simp at hstep
          rw [← hstep] at hopen
          simp [initCBState] at hopen
      | some s0 =>
        cases hs0 : s0.state with
        | closed =>
          by_cases htrip : cb_config.failure_threshold ≤ s0.failure_count + 1
          · rw [cb_step, update_false_closed_trip _ _ _ hs0 htrip] at hstep
            simp at hstep
            rw [← hstep]
            simp
          · rw [cb_step, update_false_closed_no_trip _ _ _ hs0 (by omega)] at hstep
            simp at hstep
            rw [← hstep] at hopen
            simp [hs0] at hopen
        | opened =>
          rw [cb_step, update_false_opened _ _ _ hs0] at hstep
          simp at hstep
          rw [← hstep]
          simpa using hinv s0 rfl hs0
        | half_open =>
          rw [cb_step, update_false_half_open _ _ _ hs0] at hstep
          simp at hstep
          rw [← hstep]
          simp
  | reset =>
    cases st with
    | none => simp [cb_step, reset_circuit_breaker]
    | some s0 =>
      intro s hstep hopen
      simp [cb_step, reset_circuit_breaker] at hstep
      rw [← hstep] at hopen
      simp at hopen

lemma cb_run_foldl_inv (cb_config : CircuitBreakerConfig) (ops : List CBOp)
    (st : Option CBState)
    (hinv : ∀ s, st = some s → s.state = .opened → s.next_attempt_time ≠ none) :
    ∀ s, (ops.foldl (fun st op => (cb_step cb_config st op).1) st) = some s →
      s.state = .opened → s.next_attempt_time ≠ none := by
  induction ops generalizing st with
  | nil => simpa using hinv
  | cons op ops ih =>
    simp only [List.foldl_cons]
    exact ih _ (cb_step_preserves_open_next cb_config st op hinv)

/-- C6 amended: the invariant that actually holds in every state
reachable by check / record / reset operations is `phase == Open ⇒
next_attempt_time is set`; a Closed state may retain a stale
`next_attempt_time` from an earlier Open episode (neither the success
branch of `_update_circuit_breaker` nor `reset_circuit_breaker` clears
it), but the stale value is never consulted while Closed:
`_is_circuit_open` returns false and leaves a closed state unchanged
regardless of `next_attempt_time`. -/
theorem reachable_open_has_next_attempt_time (cb_config : CircuitBreakerConfig) :
    (∀ (ops : List CBOp) (s : CBState), cb_run cb_config ops = some s →
        s.state = .opened → s.next_attempt_time ≠ none)
  ∧ (∀ (now : Int) (s : CBState), s.state = .closed →
        is_circuit_open cb_config now (some s) = (false, some s)) := by
  constructor
  · intro ops s hrun
    exact cb_run_foldl_inv cb_config ops none (by simp) s hrun
  · intro now s hs
    simp [is_circuit_open, hs]

/-- Witness for the amended C6 at a concrete reachable open state. -/
theorem reachable_open_has_next_attempt_time_witness :
    ({ state := .opened, failure_count := 1, failure_window_start := 0,
       last_failure_time := some 0, next_attempt_time := some 30 } :
        CBState).next_attempt_time ≠ none :=
  (reachable_open_has_next_attempt_time
    { failure_threshold := 1, failure_window := 60, reset_timeout := 30 }).1
    [.record false 0] _ (by decide) rfl

lemma attempt_loop_all_fail (cb_config : CircuitBreakerConfig)
    (transport : Nat → TransportResult) (time : Nat → Int) :
    ∀ (remaining attempt : Nat) (lastErr : Option ErrReason)
      (st : Option CBState),
      (∀ i, i < remaining → attempt_succeeds transport (attempt + i) = false) →
      (attempt_loop cb_config transport time remaining attempt lastErr st).1.success
          = false
      ∧ (attempt_loop cb_config transport time remaining attempt lastErr st).1.attempts
          = attempt + remaining - 1 := by
  intro remaining
  induction remaining with
  | zero =>
    intro attempt lastErr st _
    simp [attempt_loop]
  | succ r ih =>
    intro attempt lastErr st hfail
    have h0 : attempt_succeeds transport attempt = false := by
      simpa using hfail 0 (Nat.succ_pos r)
    have hrest : ∀ i, i < r → attempt_succeeds transport (attempt + 1 + i) = false := by
      intro i hi
      have := hfail (i + 1) (by omega)
      simpa [Nat.add_assoc, Nat.add_comm 1 i] using this
    cases htr : transport attempt with
    | raised =>
      have := ih (attempt + 1) (some .transportRaised) st hrest
      simp only [attempt_loop, htr]
      refine ⟨this.1, ?_⟩
      rw [this.2]
      omega
    | response status =>
      have herr : isErrStatus status = true := by
        simpa [attempt_succeeds, htr] using h0
      have := ih (attempt + 1) (some (.httpStatusError status))
        (some (update_circuit_breaker cb_config (time attempt) true st)) hrest
      simp only [attempt_loop, htr, herr, if_true]
      refine ⟨this.1, ?_⟩
      rw [this.2]
      omega

lemma attempt_loop_first_success (cb_config : CircuitBreakerConfig)
    (transport : Nat → TransportResult) (time : Nat → Int) :
    ∀ (remaining attempt : Nat) (lastErr : Option ErrReason)
      (st : Option CBState) (k : Nat),
      attempt ≤ k → k < attempt + remaining →
      attempt_succeeds transport k = true →
      (∀ i, attempt ≤ i → i < k → attempt_succeeds transport i = false) →
      (attempt_loop cb_config transport time remaining attempt lastErr st).1 =
        { success := true, attempts := k, error := none } := by
  intro remaining
  induction remaining with
  | zero =>
    intro attempt lastErr st k hk1 hk2 _ _
    omega
  | succ r ih =>
    intro attempt lastErr st k hk1 hk2 hsucc hbefore
    by_cases hk : k = attempt
    · subst hk
      cases htr : transport k with
      | raised => simp [attempt_succeeds, htr] at hsucc
      | response status =>
        have hok : isErrStatus status = false := by
          simpa [attempt_succeeds, htr] using hsucc
        simp [attempt_loop, htr, hok]
    · have hlt : attempt < k := by omega
      have h0 : attempt_succeeds transport attempt = false :=
        hbefore attempt le_rfl hlt
      have hrest : ∀ i, attempt + 1 ≤ i → i < k →
          attempt_succeeds transport i = false := by
        intro i hi1 hi2
        exact hbefore i (by omega) hi2
      cases htr : transport attempt with
      | raised =>
        simp only [attempt_loop, htr]
        exact ih (attempt + 1) (some .transportRaised) st k (by omega) (by omega)
          hsucc hrest
      | response status =>
        have herr : isErrStatus status = true := by
          simpa [attempt_succeeds, htr] using h0
        simp only [attempt_loop, htr, herr, if_true]
        exact ih (attempt + 1) (some (.httpStatusError status))
          (some (update_circuit_breaker cb_config (time attempt) true st)) k
          (by omega) (by omega) hsucc hrest

/-- C7: a logical call that enters the retry loop (breaker check passes,
`max_attempts >= 1`) reports `success = false` with an attempts count of
exactly `max_attempts` when every attempt fails, and reports
`success = true` with the exact 1-based index of the first successful
attempt otherwise. -/
theorem call_reports_exact_attempt_counts (retry_config : RetryConfig)
    (cb_config : CircuitBreakerConfig) (transport : Nat → TransportResult)
    (time : Nat → Int) (st : Option CBState)
    (hopen : (is_circuit_open cb_config (time 0) st).1 = false)
    (hmax : 1 ≤ retry_config.max_attempts) :
    ((∀ i, i < retry_config.max_attempts.toNat →
        attempt_succeeds transport (1 + i) = false) →
      (call_httpbin_with_retry retry_config cb_config transport time st).1.success
          = false
      ∧ (call_httpbin_with_retry retry_config cb_config transport time st).1.attempts
          = retry_config.max_attempts.toNat)
  ∧ (∀ k, 1 ≤ k → k ≤ retry_config.max_attempts.toNat →
      attempt_succeeds transport k = true →
      (∀ i, 1 ≤ i → i < k → attempt_succeeds transport i = false) →
      (call_httpbin_with_retry retry_config cb_config transport time st).1 =
        { success := true, attempts := k, error := none }) := by
  have hcall : call_httpbin_with_retry retry_config cb_config transport time st =
      attempt_loop cb_config transport time retry_config.max_attempts.toNat 1
        none (is_circuit_open cb_config (time 0) st).2 := by
    simp [call_httpbin_with_retry, hopen]
  constructor
  · intro hfail
    have h := attempt_loop_all_fail cb_config transport time
      retry_config.max_attempts.toNat 1 none
      (is_circuit_open cb_config (time 0) st).2 hfail
    rw [hcall]
    refine ⟨h.1, ?_⟩
    rw [h.2]
    omega
  · intro k hk1 hk2 hsucc hbefore
    rw [hcall]
    exact attempt_loop_first_success cb_config transport time
      retry_config.max_attempts.toNat 1 none
      (is_circuit_open cb_config (time 0) st).2 k hk1 (by omega) hsucc hbefore

/-- Witness for C7: three raising attempts report failure with
`attempts = 3`, and a raise followed by a 200 response reports success
with `attempts = 2`. -/
theorem call_reports_exact_attempt_counts_witness :
    ((call_httpbin_with_retry
        { max_attempts := 3, backoff_seconds := 2, max_backoff_seconds := 60,
          jitter := 0 }
        { failure_threshold := 3, failure_window := 60, reset_timeout := 30 }
        (fun _ => .raised) (fun i => (i : Int)) none).1.success = false
      ∧ (call_httpbin_with_retry
        { max_attempts := 3, backoff_seconds := 2, max_backoff_seconds := 60,
          jitter := 0 }
        { failure_threshold := 3, failure_window := 60, reset_timeout := 30 }
        (fun _ => .raised) (fun i => (i : Int)) none).1.attempts = 3)
  ∧ (call_httpbin_with_retry
        { max_attempts := 3, backoff_seconds := 2, max_backoff_seconds := 60,
          jitter := 0 }
        { failure_threshold := 3, failure_window := 60, reset_timeout := 30 }
        (fun a => if a = 1 then .raised else .response 200)
        (fun i => (i : Int)) none).1 =
      { success := true, attempts := 2, error := none } := by
  constructor
  · have h := (call_reports_exact_attempt_counts
      { max_attempts := 3, backoff_seconds := 2, max_backoff_seconds := 60,
        jitter := 0 }
      { failure_threshold := 3, failure_window := 60, reset_timeout := 30 }
      (fun _ => .raised) (fun i => (i : Int)) none rfl (by decide)).1
      (by decide)
    exact ⟨h.1, h.2⟩
  · exact (call_reports_exact_attempt_counts
      { max_attempts := 3, backoff_seconds := 2, max_backoff_seconds := 60,
        jitter := 0 }
      { failure_threshold := 3, failure_window := 60, reset_timeout := 30 }
      (fun a => if a = 1 then .raised else .response 200)
      (fun i => (i : Int)) none rfl (by decide)).2 2 (by decide) (by decide)
      (by decide) (by decide)

lemma attempt_loop_all_error_responses (cb_config : CircuitBreakerConfig)
    (transport : Nat → TransportResult) (time : Nat → Int)
    (hth : 2 ≤ cb_config.failure_threshold) :
    ∀ (remaining attempt : Nat) (lastErr : Option ErrReason)
      (st : Option CBState), 1 ≤ remaining →
      (∀ i, i < remaining → ∃ status,
        transport (attempt + i) = .response status ∧ isErrStatus status = true) →
      ∃ sF, (attempt_loop cb_config transport time remaining attempt lastErr st).2.1
              = some sF
        ∧ sF.state = .closed ∧ sF.failure_count = 1 := by
  intro remaining
  induction remaining with
  | zero =>
    intro attempt lastErr st h1
    omega
  | succ r ih =>
    intro attempt lastErr st _ hresp
    obtain ⟨status, htr, herr⟩ := by simpa using hresp 0 (Nat.succ_pos r)
    cases hr : r with
    | zero =>
      subst hr
      have hclosed : (update_circuit_breaker cb_config (time attempt) true st).state
          = .closed := by
        rw [update_true_eq]
      have hcount : (update_circuit_breaker cb_config
          (time attempt) true st).failure_count = 0 := by
        rw [update_true_eq]
      have hupd := update_false_closed_no_trip cb_config (time (attempt + 1))
        (update_circuit_breaker cb_config (time attempt) true st) hclosed
        (by rw [hcount]; omega)
      refine ⟨update_circuit_breaker cb_config (time (attempt + 1)) false
        (some (update_circuit_breaker cb_config (time attempt) true st)),
        ?_, ?_, ?_⟩
      · simp only [attempt_loop, htr, herr, if_true]
      · rw [hupd]
        exact hclosed
      · rw [hupd]
        simp [hcount]
    | succ r2 =>
      subst hr
      have hrest : ∀ i, i < r2 + 1 → ∃ status,
          transport (attempt + 1 + i) = .response status ∧
          isErrStatus status = true := by
        intro i hi
        have := hresp (i + 1) (by omega)
        simpa [Nat.add_assoc, Nat.add_comm 1 i] using this
      obtain ⟨sF, hF, hFstate, hFcount⟩ := ih (attempt + 1)
        (some (.httpStatusError status))
        (some (update_circuit_breaker cb_config (time attempt) true st))
        (by omega) hrest
      refine ⟨sF, ?_, hFstate, hFcount⟩
      simp only [attempt_loop, htr, herr, if_true]
      exact hF

/-- C10: the breaker success update runs on any returned response before
the status is inspected: `_update_circuit_breaker(endpoint, True, ...)`
always leaves the entry Closed with `failure_count = 0` (first
conjunct).  Consequently a logical call whose attempts all receive HTTP
error-status responses ends with the breaker Closed and
`failure_count = 1` (the single exhaustion failure recorded on top of
the last success reset), so for any `failure_threshold >= 2` the breaker
never opens while the transport keeps returning responses. -/
theorem error_status_responses_keep_breaker_closed (retry_config : RetryConfig)
    (cb_config : CircuitBreakerConfig) (transport : Nat → TransportResult)
    (time : Nat → Int) (st : Option CBState)
    (hth : 2 ≤ cb_config.failure_threshold)
    (hmax : 1 ≤ retry_config.max_attempts)
    (hopen : (is_circuit_open cb_config (time 0) st).1 = false)
    (hresp : ∀ i, i < retry_config.max_attempts.toNat → ∃ status,
        transport (1 + i) = .response status ∧ isErrStatus status = true) :
    (∀ (now : Int) (st0 : Option CBState),
        (update_circuit_breaker cb_config now true st0).state = .closed
      ∧ (update_circuit_breaker cb_config now true st0).failure_count = 0)
  ∧ ∃ sF, (call_httpbin_with_retry retry_config cb_config transport time st).2.1
            = some sF
      ∧ sF.state = .closed ∧ sF.failure_count = 1
      ∧ phase_is_open (some sF) = false := by
  constructor
  · intro now st0
    rw [update_true_eq]
    exact ⟨rfl, rfl⟩
  · have hcall : call_httpbin_with_retry retry_config cb_config transport time st =
        attempt_loop cb_config transport time retry_config.max_attempts.toNat 1
          none (is_circuit_open cb_config (time 0) st).2 := by
      simp [call_httpbin_with_retry, hopen]
    obtain ⟨sF, hF, hFstate, hFcount⟩ :=
      attempt_loop_all_error_responses cb_config transport time hth
        retry_config.max_attempts.toNat 1 none
        (is_circuit_open cb_config (time 0) st).2 (by omega) hresp
    refine ⟨sF, ?_, hFstate, hFcount, ?_⟩
    · rw [hcall]
      exact hF
    · simp [phase_is_open, hFstate]

/-- Witness for C10: three 503 responses leave the breaker Closed with
`failure_count = 1` under threshold 3. -/
theorem error_status_responses_keep_breaker_closed_witness :
    ∃ sF, (call_httpbin_with_retry
        { max_attempts := 3, backoff_seconds := 2, max_backoff_seconds := 60,
          jitter := 0 }
        { failure_threshold := 3, failure_window := 60, reset_timeout := 30 }
        (fun _ => .response 503) (fun i => (i : Int)) none).2.1 = some sF
      ∧ sF.state = .closed ∧ sF.failure_count = 1
      ∧ phase_is_open (some sF) = false :=
  (error_status_responses_keep_breaker_closed
    { max_attempts := 3, backoff_seconds := 2, max_backoff_seconds := 60,
      jitter := 0 }
    { failure_threshold := 3, failure_window := 60, reset_timeout := 30 }
    (fun _ => .response 503) (fun i => (i : Int)) none (by decide) (by decide)
    rfl (fun i _ => ⟨503, rfl, by decide⟩)).2

/-- C1 evaluation: the attempt loop records a breaker SUCCESS for an HTTP
error-status response.  Starting from a Closed state with
`failure_count = 1` under `failure_threshold = 2`, a single attempt that
receives a 500 response first resets the breaker (success update before
`raise_for_status`), then the exhaustion path records one failure: the
final state is Closed with `failure_count = 1`, not Open — whereas if no
breaker success were recorded for the error-status response (as the
claim states), the recorded failure alone would have tripped the breaker
(second conjunct: a plain recorded failure from that same state opens
it). -/
theorem error_status_response_records_breaker_success :
    call_httpbin_with_retry
      { max_attempts := 1, backoff_seconds := 2, max_backoff_seconds := 60,
        jitter := 0 }
      { failure_threshold := 2, failure_window := 60, reset_timeout := 30 }
      (fun _ => .response 500) (fun i => (i : Int))
      (some { state := .closed, failure_count := 1, failure_window_start := 0,
              last_failure_time := some 0, next_attempt_time := none }) =
      ({ success := false, attempts := 1, error := some (.httpStatusError 500) },
       some { state := .closed, failure_count := 1, failure_window_start := 1,
              last_failure_time := some 2, next_attempt_time := none }, 1)
  ∧ (update_circuit_breaker
      { failure_threshold := 2, failure_window := 60, reset_timeout := 30 } 2 false
      (some { state := .closed, failure_count := 1, failure_window_start := 0,
              last_failure_time := some 0, next_attempt_time := none })).state
      = .opened := by
  constructor
  · decide
  · decide

/-- Counterexample to C9: `_get_int` applies the default only for an
absent key and performs no range validation, so
`_build_external_api_config` accepts `max_attempts = 0` and returns a
`RetryConfig` carrying it — the construction is total, nothing is
rejected as a hard failure. -/
theorem max_attempts_below_one_accepted_at_construction :
    build_retry_config
      { max_attempts := some 0, backoff_seconds := none,
        max_backoff_seconds := none, jitter := none } =
      { max_attempts := 0, backoff_seconds := 2, max_backoff_seconds := 60,
        jitter := 1 / 10 }
  ∧ (build_retry_config
      { max_attempts := some 0, backoff_seconds := none,
        max_backoff_seconds := none, jitter := none }).max_attempts < 1 := by
  constructor
  · rfl
  · norm_num [build_retry_config, get_int]

/-- C9 amended: a configuration with `max_attempts < 1` is NOT rejected
at construction time — `build_retry_config` passes any supplied value
through unvalidated — and a later call made with it produces the
degenerate outcome: the retry loop body never runs, the transport is
invoked zero times, and a failure outcome with `attempts = 0` and no
recorded error is returned. -/
theorem invalid_max_attempts_reaches_degenerate_call (d : RetryData) (n : Int)
    (hd : d.max_attempts = some n) (hn : n ≤ 0)
    (cb_config : CircuitBreakerConfig) (transport : Nat → TransportResult)
    (time : Nat → Int) (st : Option CBState)
    (hopen : (is_circuit_open cb_config (time 0) st).1 = false) :
    (build_retry_config d).max_attempts = n
  ∧ (call_httpbin_with_retry (build_retry_config d) cb_config transport time
      st).1 = { success := false, attempts := 0, error := none }
  ∧ (call_httpbin_with_retry (build_retry_config d) cb_config transport time
      st).2.2 = 0 := by
  have hacc : (build_retry_config d).max_attempts = n := by
    simp [build_retry_config, get_int, hd]
  have hz : (build_retry_config d).max_attempts.toNat = 0 := by
    rw [hacc]
    omega
  refine ⟨hacc, ?_, ?_⟩
  · simp [call_httpbin_with_retry, hopen, hz, attempt_loop]
  · simp [call_httpbin_with_retry, hopen, hz, attempt_loop]

/-- Witness for the amended C9 at `max_attempts = 0` from an unseen
endpoint. -/
theorem invalid_max_attempts_reaches_degenerate_call_witness :
    (build_retry_config
      { max_attempts := some 0, backoff_seconds := none,
        max_backoff_seconds := none, jitter := none }).max_attempts = 0
  ∧ (call_httpbin_with_retry
      (build_retry_config
        { max_attempts := some 0, backoff_seconds := none,
          max_backoff_seconds := none, jitter := none })
      { failure_threshold := 3, failure_window := 60, reset_timeout := 30 }
      (fun _ => .raised) (fun i => (i : Int)) none).1 =
      { success := false, attempts := 0, error := none }
  ∧ (call_httpbin_with_retry
      (build_retry_config
        { max_attempts := some 0, backoff_seconds := none,
          max_backoff_seconds := none, jitter := none })
      { failure_threshold := 3, failure_window := 60, reset_timeout := 30 }
      (fun _ => .raised) (fun i => (i : Int)) none).2.2 = 0 :=
  invalid_max_attempts_reaches_degenerate_call
    { max_attempts := some 0, backoff_seconds := none,
      max_backoff_seconds := none, jitter := none }
    0 rfl (by decide)
    { failure_threshold := 3, failure_window := 60, reset_timeout := 30 }
    (fun _ => .raised) (fun i => (i : Int)) none rfl
